import Mathlib

/-!
Verification of the WPA2 4-Way Handshake / KRACK demonstration model.

Shallow embedding of the Python sources:
  - `pseudorandom.py` : `hmac_sha1`, `prf`
  - `entities/AccessPoint.py` : the Authenticator state machine
  - the Supplicant (`entities/Client.py`) and the shared `Entity` base are
    not part of the available sources; they are modelled from the spec
    (each such definition carries a `Modelled from the spec:` doc comment).

Byte strings are lists of naturals (each entry a byte value); Python `int`
is `Int`; Python dict messages are structures with the dict's fields;
a Python `assert` failure (the spec's `ReplayError`) is `Except.error`.
Python's dynamic typing of `prf`'s `a`/`b` arguments is modelled by `PyVal`
(`str` or `bytes`): the Authenticator passes the bytes label
`b"GroupKeyExpansion"`, which makes `prf`'s `(a + b + str(i))` concatenate
`bytes` with `str` and raise a `TypeError`, so `generate_gtk` never returns
normally — `prfPy` embeds that call path, while `prf` embeds the `str`-typed
behaviour the annotations describe (`prfPy_str` relates the two).
-/

/-- Byte strings (Python `bytes`) as lists of naturals. -/
abbrev Bytes := List Nat

/-- ASCII bytes of a string literal (Python `str.encode`). -/
def strBytes (s : String) : Bytes := s.data.map Char.toNat

/-- Fuel-driven decimal digit list of a natural number (most significant first). -/
def digitsAux : Nat → Nat → List Nat
  | 0, _ => []
  | fuel + 1, n => if n < 10 then [n] else digitsAux fuel (n / 10) ++ [n % 10]

/-- ASCII bytes of Python `str(i)` for a natural `i`. -/
def strNat (n : Nat) : Bytes := (digitsAux (n + 1) n).map (· + 48)

/-- Mixing step used by the modelled keyed-hash primitive. -/
def mixStep (acc b : Nat) : Nat := (acc * 131 + b + 11) % 1000000007

/-- Modelled from the spec: `hmac_sha1` in `pseudorandom.py` delegates to the
Python standard library (`hmac`, `hashlib`), which the spec treats as an
external collaborator — an opaque deterministic keyed-hash primitive
`hash(key, message) -> fixed_length_digest` with a 160-bit (20-byte) digest.
This executable stand-in is deterministic and always returns 20 bytes. -/
def hmac_sha1 (key message : Bytes) : Bytes :=
  let s := message.foldl mixStep (key.foldl mixStep 5381)
  (List.range 20).map (fun i => (s * (2 * i + 3) + i * i * 7919 + s / (i + 1)) % 256)

/-- Python slice `l[:n]` for an `Int` bound `n`: a nonnegative bound takes the
first `n` elements, a negative bound drops `|n|` elements from the end. -/
def pySlice (l : Bytes) (n : Int) : Bytes :=
  if n < 0 then l.take (l.length - n.natAbs) else l.take n.toNat

/-- `prf` from `pseudorandom.py`: concatenates `hmac_sha1 k (a ++ b ++ str i)`
for `i = 0, 1, …` over `(Len + 159) // 160` rounds (floor division; an empty
range when that quotient is nonpositive) and keeps the slice `R[:Len // 8]`. -/
def prf (k a b : Bytes) (Len : Int) : Bytes :=
  let numRounds := ((Len + 159).fdiv 160).toNat
  let R := (List.flatten ((List.range numRounds).map
    (fun i => hmac_sha1 k (a ++ b ++ strNat i))))
  pySlice R (Len.fdiv 8)

theorem hmac_sha1_length (key message : Bytes) : (hmac_sha1 key message).length = 20 := by
  simp [hmac_sha1]

theorem flatten_map_range_length (f : Nat → Bytes) (h : ∀ i, (f i).length = 20) :
    ∀ m, (List.flatten ((List.range m).map f)).length = 20 * m := by
  intro m
  induction m with
  | zero => simp
  | succ m ih =>
    rw [List.range_succ]
    simp only [List.map_append, List.flatten_append, List.length_append, ih]
    simp [h m]
    omega

theorem prf_length_of_nonneg (k a b : Bytes) (L : Int) (hL : 0 ≤ L) :
    (prf k a b L).length = L.toNat / 8 := by
  unfold prf pySlice
  rw [Int.fdiv_eq_ediv _ (by omega), Int.fdiv_eq_ediv _ (by omega)]
  have hneg : ¬ (L / 8 < 0) := by omega
  simp only [hneg, if_false, List.length_take]
  rw [flatten_map_range_length _ (fun i => hmac_sha1_length k (a ++ b ++ strNat i))]
  omega

/-- Runtime failure of an Authenticator method call: a replay-counter
`assert` failure (the spec's `ReplayError`) or a dynamic typing error raised
by the Python runtime. -/
inductive PyError where
  | replayError (msg : String)
  | typeError (msg : String)
  | attributeError (msg : String)
deriving DecidableEq

/-- A Python value passed as the `a`/`b` argument of `prf`: a text string
(ASCII codes) or a byte string. The source annotates these parameters `str`,
but `AccessPoint.generate_gtk` passes `bytes`. -/
inductive PyVal where
  | pystr (s : Bytes)
  | pybytes (b : Bytes)
deriving DecidableEq

/-- Python `+` on `str`/`bytes` values: concatenation when the operands have
the same type, a `TypeError` when they are mixed. -/
def pyAdd : PyVal → PyVal → Except PyError PyVal
  | .pystr s, .pystr t => .ok (.pystr (s ++ t))
  | .pybytes s, .pybytes t => .ok (.pybytes (s ++ t))
  | .pybytes _, .pystr _ => .error (.typeError "cannot concat str to bytes")
  | .pystr _, .pybytes _ => .error (.typeError "cannot concat bytes to str")

/-- Python `.encode()`: defined on `str`, an `AttributeError` on `bytes`. -/
def pyEncode : PyVal → Except PyError Bytes
  | .pystr s => .ok s
  | .pybytes _ => .error (.attributeError "bytes object has no attribute encode")

/-- The message built by one round of `prf`: `(a + b + str(i)).encode()`,
with Python's dynamic typing of `+` and `.encode()`. -/
def pyBuildMsg (a b : PyVal) (i : Nat) : Except PyError Bytes := do
  let ab ← pyAdd a b
  let abi ← pyAdd ab (.pystr (strNat i))
  pyEncode abi

/-- `prf` from `pseudorandom.py` under Python's dynamic typing of `a`/`b`:
each round builds `(a + b + str(i)).encode()` via `pyBuildMsg`, and any
`TypeError`/`AttributeError` aborts the call. -/
def prfPy (k : Bytes) (a b : PyVal) (Len : Int) : Except PyError Bytes := do
  let blocks ← (List.range (((Len + 159).fdiv 160).toNat)).mapM
    (fun i => do
      let m ← pyBuildMsg a b i
      pure (hmac_sha1 k m))
  pure (pySlice (List.flatten blocks) (Len.fdiv 8))

theorem pyBuildMsg_str (a b : Bytes) (i : Nat) :
    pyBuildMsg (.pystr a) (.pystr b) i = .ok (a ++ b ++ strNat i) := rfl

theorem prfPy_str (k a b : Bytes) (L : Int) :
    prfPy k (.pystr a) (.pystr b) L = .ok (prf k a b L) := by
  unfold prfPy prf
  have h : ∀ l : List Nat,
      l.mapM (fun i => do
        let m ← pyBuildMsg (.pystr a) (.pystr b) i
        pure (hmac_sha1 k m))
      = Except.ok (l.map (fun i => hmac_sha1 k (a ++ b ++ strNat i))) := by
    intro l
    induction l with
    | nil => rfl
    | cons x xs ih => rw [List.mapM_cons, ih]; rfl
  rw [h]
  rfl

/-- The spec's `ReplayError`: the failure signalled by a replay-counter check
(`assert` in the Python source). -/
inductive ReplayError where
  | mk (msg : String)
deriving DecidableEq

/-- Does an `Except` value hold a success? -/
def exceptOk {ε α : Type} : Except ε α → Bool
  | .ok _ => true
  | .error _ => false

/-- Success value of an `Except`, or the default `d` on error (a Python
`assert` failure leaves the object unchanged, so handlers that fail are
modelled as leaving the state at its default / previous value). -/
def okD {ε α : Type} (e : Except ε α) (d : α) : α :=
  match e with
  | .ok x => x
  | .error _ => d

/-- Did the call fail with the replay-counter `assert` (a `ReplayError`)? -/
def isReplayErr {α : Type} : Except PyError α → Bool
  | .error (.replayError _) => true
  | _ => false

/-- Did the call fail with a dynamic `TypeError`? -/
def isTypeErr {α : Type} : Except PyError α → Bool
  | .error (.typeError _) => true
  | _ => false

/-- Message 1 of the handshake: `{"ANonce": …, "r": …}`. -/
structure Msg1 where
  ANonce : Bytes
  r : Int

/-- Message 2 of the handshake: `{"SNonce": …, "r": …}`. -/
structure Msg2 where
  SNonce : Bytes
  r : Int

/-- Message 3 of the handshake: `{"gtk": …, "r": …}`. -/
structure Msg3 where
  gtk : Bytes
  r : Int

/-- Message 4 of the handshake: `{"r": …}`. -/
structure Msg4 where
  r : Int

/-- State of the Authenticator (`AccessPoint` in `entities/AccessPoint.py`).
Fields `pmk`, `mac`, `replay_counter` are inherited from `Entity`;
`client_mac` and `gmk` are set by `AccessPoint.__init__`; `anonce`, `snonce`
and `gtk` are assigned during the handshake. The `Entity` base class is not
under the available sources, so nonce generation is modelled from the spec as
drawing from an external stream of random values (`nonce_src`) at a cursor
(`nonce_idx`). -/
structure AccessPoint where
  pmk : Bytes
  mac : Bytes
  client_mac : Bytes
  gmk : Bytes
  replay_counter : Int
  anonce : Bytes
  snonce : Bytes
  gtk : Bytes
  nonce_src : Nat → Bytes
  nonce_idx : Nat

/-- Modelled from the spec: `Entity.generate_nonce` (the `Entity` base class
is not under the available sources) returns a fresh cryptographically random
fixed-length value; modelled as the next value of the external stream. -/
def AccessPoint.generate_nonce (ap : AccessPoint) : Bytes × AccessPoint :=
  (ap.nonce_src ap.nonce_idx, { ap with nonce_idx := ap.nonce_idx + 1 })

/-- ASCII bytes of the PRF label `"GroupKeyExpansion"`. -/
def groupKeyLabel : Bytes := strBytes "GroupKeyExpansion"

/-- `AccessPoint.generate_gtk`: draws a fresh `gnonce` and calls
`prf(self.gmk, b"GroupKeyExpansion", self.mac + gnonce, 256)`. The label is a
**bytes** literal, so inside `prf` the expression `(a + b + str(i))`
concatenates `bytes` with `str` and the call raises a `TypeError` (modelled
by `prfPy`); no GTK is ever produced. -/
def AccessPoint.generate_gtk (ap : AccessPoint) : Except PyError (Bytes × AccessPoint) := do
  let (gnonce, ap1) := ap.generate_nonce
  let g ← prfPy ap.gmk (.pybytes groupKeyLabel) (.pybytes (ap.mac ++ gnonce)) 256
  pure (g, ap1)

/-- `AccessPoint.send_message_1`: generates a fresh ANonce, increments the
replay counter and emits `{ANonce, r}`. -/
def AccessPoint.send_message_1 (ap : AccessPoint) : Msg1 × AccessPoint :=
  let (n, ap1) := ap.generate_nonce
  let ap2 := { ap1 with anonce := n, replay_counter := ap1.replay_counter + 1 }
  ({ ANonce := ap2.anonce, r := ap2.replay_counter }, ap2)

/-- `AccessPoint.handle_message_2`: asserts `msg["r"] <= replay_counter`,
stores the SNonce, then attempts to derive a new GTK via `generate_gtk`
(which always raises a `TypeError`, propagated here, so the assignment
`self.gtk = …` never executes). -/
def AccessPoint.handle_message_2 (ap : AccessPoint) (message2 : Msg2) :
    Except PyError AccessPoint :=
  if message2.r ≤ ap.replay_counter then
    match AccessPoint.generate_gtk { ap with snonce := message2.SNonce } with
    | .ok (g, ap2) => .ok { ap2 with gtk := g }
    | .error e => .error e
  else
    .error (.replayError "Replay counter error in Message 2")

/-- `AccessPoint.send_message_3`: increments the replay counter and emits
`{gtk, r}` with the previously derived GTK. -/
def AccessPoint.send_message_3 (ap : AccessPoint) : Msg3 × AccessPoint :=
  let ap1 := { ap with replay_counter := ap.replay_counter + 1 }
  ({ gtk := ap1.gtk, r := ap1.replay_counter }, ap1)

/-- `AccessPoint.handle_message_4`: asserts `msg["r"] <= replay_counter`;
no state change on success. -/
def AccessPoint.handle_message_4 (ap : AccessPoint) (message4 : Msg4) :
    Except PyError AccessPoint :=
  if message4.r ≤ ap.replay_counter then
    .ok ap
  else
    .error (.replayError "Replay counter error in Message 4")

/-- `AccessPoint.generate_gtk` always fails with the `TypeError` raised by
`prf`'s `(a + b + str(i))` on the bytes label, whatever the state. -/
theorem generate_gtk_type_error (ap : AccessPoint) :
    ap.generate_gtk = .error (PyError.typeError "cannot concat str to bytes") := rfl

/-- Modelled from the spec: the Supplicant (`entities/Client.py` is not under
the available sources). Fields follow §3 of the spec: inherited `Entity`
state (`pmk`, `mac`, `replay_counter`), the peer address, installed `ptk`
and `gtk`, and the keystream position `ks_pos` of the installed pairwise key
("has this ptk been used to encrypt data yet"), advanced by each encryption
and reset to byte 0 by each key (re)installation. Nonce generation uses an
external stream, as for the Authenticator. -/
structure Client where
  pmk : Bytes
  mac : Bytes
  ap_mac : Bytes
  replay_counter : Int
  anonce : Bytes
  snonce : Bytes
  ptk : Bytes
  gtk : Bytes
  ks_pos : Nat
  nonce_src : Nat → Bytes
  nonce_idx : Nat

/-- ASCII bytes of the label used for keystream expansion. -/
def keystreamLabel : Bytes := strBytes "Keystream"

/-- Modelled from the spec: the first `n` keystream bytes deterministically
derived from the installed pairwise key material, via the repository's `prf`
(`8 * n` bits, hence `n` bytes). For a fixed key the first `N` bytes are
identical on every derivation. -/
def keystream (tk : Bytes) (n : Nat) : Bytes :=
  prf tk keystreamLabel [] (8 * (n : Int))

/-- Modelled from the spec: `Entity.encrypt` XORs the plaintext with the
keystream bytes at the current position, advancing the position by the
plaintext length. -/
def Client.encrypt (c : Client) (plaintext : Bytes) : Bytes × Client :=
  let seg := (keystream c.ptk (c.ks_pos + plaintext.length)).drop c.ks_pos
  (List.zipWith (fun x y => x ^^^ y) plaintext seg,
   { c with ks_pos := c.ks_pos + plaintext.length })

/-- Modelled from the spec: `Client.handle_message_3` validates the replay
counter (the retransmission scenario of §8 requires a strictly larger counter
to be accepted, after which the local counter is updated to the received
value), installs `gtk = msg.gtk`, and marks the pairwise key as freshly
installed by resetting the keystream position to byte 0. -/
def Client.handle_message_3 (c : Client) (message3 : Msg3) :
    Except ReplayError Client :=
  if c.replay_counter < message3.r then
    .ok { c with gtk := message3.gtk, replay_counter := message3.r, ks_pos := 0 }
  else
    .error (.mk "Replay counter error in Message 3")

/-- Modelled from the spec: in the `ESTABLISHED` state, `Client.send_message`
encrypts application data via `encrypt` with the installed key material. -/
def Client.send_message (c : Client) (plaintext : Bytes) : Bytes × Client :=
  c.encrypt plaintext

theorem keystream_length (tk : Bytes) (n : Nat) : (keystream tk n).length = n := by
  rw [keystream, prf_length_of_nonneg _ _ _ _ (by positivity)]
  omega

theorem zipWith_xor_cancel :
    ∀ (p ks : Bytes), p.length = ks.length →
      List.zipWith (fun x y => x ^^^ y) (List.zipWith (fun x y => x ^^^ y) p ks) p = ks := by
  intro p
  induction p with
  | nil =>
    intro ks h
    cases ks with
    | nil => simp
    | cons x ks => simp at h
  | cons a p ih =>
    intro ks h
    cases ks with
    | nil => simp at h
    | cons x ks =>
      simp only [List.zipWith_cons_cons, List.cons.injEq]
      constructor
      · rw [Nat.xor_comm a x, Nat.xor_assoc, Nat.xor_self, Nat.xor_zero]
      · exact ih ks (by simpa using h)

theorem pySlice_take (l : Bytes) (n : Int) : ∃ rest : Bytes, l = pySlice l n ++ rest := by
  unfold pySlice
  split
  · exact ⟨l.drop (l.length - n.natAbs), (List.take_append_drop _ l).symm⟩
  · exact ⟨l.drop n.toNat, (List.take_append_drop _ l).symm⟩

/-- C2: `handle_message_2` and `handle_message_4` fail with a `ReplayError`
exactly when the message's counter `r` exceeds the AccessPoint's current
`replay_counter`, and pass the replay check whenever `r` is less than or
equal to it. When the check passes, `handle_message_4` returns normally,
while `handle_message_2` goes on to fail with a `TypeError` inside
`generate_gtk` — a distinct defect, not a replay-check failure. -/
theorem replay_check_exact (ap : AccessPoint) (m2 : Msg2) (m4 : Msg4) :
    (isReplayErr (ap.handle_message_2 m2) = true ↔ ap.replay_counter < m2.r) ∧
    (isTypeErr (ap.handle_message_2 m2) = true ↔ m2.r ≤ ap.replay_counter) ∧
    (isReplayErr (ap.handle_message_4 m4) = true ↔ ap.replay_counter < m4.r) ∧
    (exceptOk (ap.handle_message_4 m4) = true ↔ m4.r ≤ ap.replay_counter) := by
  refine ⟨?_, ?_, ?_, ?_⟩
  · unfold AccessPoint.handle_message_2
    split
    · next h => rw [generate_gtk_type_error]; simp [isReplayErr]; omega
    · next h => simp [isReplayErr]; omega
  · unfold AccessPoint.handle_message_2
    split
    · next h => rw [generate_gtk_type_error]; simp [isTypeErr]; omega
    · next h => simp [isTypeErr]; omega
  · unfold AccessPoint.handle_message_4
    split
    · next h => simp [isReplayErr]; omega
    · next h => simp [isReplayErr]; omega
  · unfold AccessPoint.handle_message_4
    split
    · next h => simp [exceptOk]; omega
    · next h => simp [exceptOk]; omega

/-- C3 counterexample: at `Len = 4` the output of `prf` has 0 bytes, while
`ceil(4/8) = (4 + 7) / 8 = 1`, so the output length is not `ceil(Len/8)`. -/
theorem prf_length_ceil_cex : ¬ ((prf [] [] [] 4).length = (4 + 7) / 8) := by decide

/-- C3 (amended): for positive `Len`, `prf k a b Len` returns `Len / 8`
bytes (floor division, as in the source's `Len // 8` slice bound), which
equals `ceil(Len/8)` only when `Len` is a multiple of 8. -/
theorem prf_output_length (k a b : Bytes) (L : Int) (h : 0 < L) :
    (prf k a b L).length = L.toNat / 8 :=
  prf_length_of_nonneg k a b L (le_of_lt h)

/-- C3 witness: instantiating the amended claim at `Len = 4`. -/
theorem prf_output_length_witness :
    (0 : Int) < 4 ∧ (prf [] [] [] 4).length = (4 : Int).toNat / 8 :=
  ⟨by decide, prf_output_length [] [] [] 4 (by decide)⟩

/-- C6: the output of `prf` is a prefix of the concatenation of the keyed-hash
blocks `hmac_sha1 k (a ++ b ++ str i)` for `i = 0, 1, 2, …`, and the number of
160-bit blocks produced covers the requested byte count before truncation. -/
theorem prf_is_hash_block_prefix (k a b : Bytes) (L : Int) :
    (∃ rest : Bytes,
      List.flatten ((List.range (((L + 159).fdiv 160).toNat)).map
        (fun i => hmac_sha1 k (a ++ b ++ strNat i))) = prf k a b L ++ rest) ∧
    (L.fdiv 8).toNat ≤
      (List.flatten ((List.range (((L + 159).fdiv 160).toNat)).map
        (fun i => hmac_sha1 k (a ++ b ++ strNat i)))).length := by
  constructor
  · exact pySlice_take _ (L.fdiv 8)
  · rw [flatten_map_range_length _ (fun i => hmac_sha1_length k (a ++ b ++ strNat i))]
    rw [Int.fdiv_eq_ediv _ (by omega), Int.fdiv_eq_ediv _ (by omega)]
    omega

/-- C7: `prf` is deterministic — two calls with identical arguments yield
identical outputs (the embedding is a pure function of its arguments, mirroring
the source, which reads only its parameters and local variables). -/
theorem prf_deterministic (k a b : Bytes) (L : Int) (k2 a2 b2 : Bytes) (L2 : Int)
    (hk : k = k2) (ha : a = a2) (hb : b = b2) (hL : L = L2) :
    prf k a b L = prf k2 a2 b2 L2 := by
  subst hk; subst ha; subst hb; subst hL; rfl

/-- C7 witness: instantiating determinism at concrete arguments. -/
theorem prf_deterministic_witness :
    ([1] : Bytes) = [1] ∧ prf [1] [2] [3] 8 = prf [1] [2] [3] 8 :=
  ⟨rfl, prf_deterministic [1] [2] [3] 8 [1] [2] [3] 8 rfl rfl rfl rfl⟩

/-- C9 counterexample: at the non-positive length `Len = -8` (and `Len = 0`),
`prf` does not fail with an error: it returns the empty byte string. -/
theorem prf_nonpositive_no_error_cex :
    prf [] [] [] (-8) = [] ∧ prf [] [] [] 0 = [] := by decide

/-- C9 (amended): for every non-positive `Len`, `prf k a b Len` returns the
empty byte string rather than rejecting the input with an error. -/
theorem prf_nonpositive_empty (k a b : Bytes) (L : Int) (h : L ≤ 0) :
    prf k a b L = [] := by
  unfold prf pySlice
  rw [Int.fdiv_eq_ediv _ (by omega), Int.fdiv_eq_ediv _ (by omega)]
  have h0 : ((L + 159) / 160).toNat = 0 := by omega
  rw [h0]
  split <;> simp

/-- C9 witness: instantiating the amended claim at `Len = -8`. -/
theorem prf_nonpositive_empty_witness :
    (-8 : Int) ≤ 0 ∧ prf [9] [8] [7] (-8) = [] :=
  ⟨by decide, prf_nonpositive_empty [9] [8] [7] (-8) (by decide)⟩

/-- C4: the claim requires `send_message_3` to return the `gtk` most recently
derived by `handle_message_2`, but in the source no GTK is ever derived:
`handle_message_2` raises a `TypeError` inside `generate_gtk` (the bytes
label reaches `prf`'s `(a + b + str(i))`) before `self.gtk` is assigned.
Evaluating the code at a failing input: the replay check passes (`r = 1 ≤
replay_counter = 1`), the call fails with the `TypeError`, and a subsequent
`send_message_3` can only emit the untouched placeholder `gtk` field (in
Python, an access to the never-assigned `self.gtk`), not a derived one. -/
theorem send_message_3_no_derived_gtk :
    AccessPoint.handle_message_2
        ⟨[1], [2], [3], [4], 1, [], [], [], fun _ => [5], 0⟩ ⟨[6], 1⟩
      = .error (PyError.typeError "cannot concat str to bytes") ∧
    ((okD (AccessPoint.handle_message_2
        ⟨[1], [2], [3], [4], 1, [], [], [], fun _ => [5], 0⟩ ⟨[6], 1⟩)
        ⟨[1], [2], [3], [4], 1, [], [], [], fun _ => [5], 0⟩).send_message_3).1.gtk
      = [] :=
  ⟨rfl, rfl⟩

/-- C5: the claim says a passing `handle_message_2` installs a 32-byte
`gtk = prf(gmk, "GroupKeyExpansion", mac ++ gnonce, 256)`, but in the source
the `prf` call raises a `TypeError` — the label `b"GroupKeyExpansion"` is
`bytes`, so `(a + b + str(i))` concatenates `bytes` with `str` — and the
assignment `self.gtk = …` never executes. Evaluating the code at a failing
input: the replay check passes (`r = 0 ≤ replay_counter = 2`), the call
fails with the `TypeError`, and the `gtk` field keeps its prior value. -/
theorem handle_message_2_no_gtk_install :
    AccessPoint.handle_message_2
        ⟨[11], [12], [13], [14], 2, [], [], [9], fun _ => [15], 0⟩ ⟨[16], 0⟩
      = .error (PyError.typeError "cannot concat str to bytes") ∧
    (okD (AccessPoint.handle_message_2
        ⟨[11], [12], [13], [14], 2, [], [], [9], fun _ => [15], 0⟩ ⟨[16], 0⟩)
        ⟨[11], [12], [13], [14], 2, [], [], [9], fun _ => [15], 0⟩).gtk = [9] :=
  ⟨rfl, rfl⟩

/-- C8: no operation of the AccessPoint decreases `replay_counter`, whether it
succeeds or fails (a failing `assert` in the Python source leaves the object
unchanged, which `okD … ap` models as keeping the previous state). -/
theorem replay_counter_monotone (ap : AccessPoint) (m2 : Msg2) (m4 : Msg4) :
    ap.replay_counter ≤ (ap.send_message_1).2.replay_counter ∧
    ap.replay_counter ≤ (okD (ap.handle_message_2 m2) ap).replay_counter ∧
    ap.replay_counter ≤ (ap.send_message_3).2.replay_counter ∧
    ap.replay_counter ≤ (okD (ap.handle_message_4 m4) ap).replay_counter := by
  refine ⟨?_, ?_, ?_, ?_⟩
  · dsimp only [AccessPoint.send_message_1, AccessPoint.generate_nonce]
    omega
  · unfold AccessPoint.handle_message_2
    split
    · rw [generate_gtk_type_error]
      dsimp only [okD]
      omega
    · dsimp only [okD]
      omega
  · dsimp only [AccessPoint.send_message_3]
    omega
  · unfold AccessPoint.handle_message_4
    split
    · dsimp only [okD]
      omega
    · dsimp only [okD]
      omega

/-- Equality of the construction-time key/identity fields of two AccessPoint
states. -/
def sameKeyFields (x y : AccessPoint) : Prop :=
  x.pmk = y.pmk ∧ x.mac = y.mac ∧ x.client_mac = y.client_mac ∧ x.gmk = y.gmk

/-- C10: `pmk`, `mac`, `client_mac` and `gmk` are left unchanged by every
operation of the AccessPoint, on success and on failure alike — including
the `TypeError` path of `generate_gtk`/`handle_message_2`, which touches
none of these fields. -/
theorem key_fields_immutable (ap : AccessPoint) (m2 : Msg2) (m4 : Msg4) :
    sameKeyFields (ap.send_message_1).2 ap ∧
    sameKeyFields (okD (ap.handle_message_2 m2) ap) ap ∧
    sameKeyFields (ap.send_message_3).2 ap ∧
    sameKeyFields (okD (ap.handle_message_4 m4) ap) ap ∧
    sameKeyFields (okD ap.generate_gtk ([], ap)).2 ap := by
  refine ⟨⟨rfl, rfl, rfl, rfl⟩, ?_, ⟨rfl, rfl, rfl, rfl⟩, ?_, ?_⟩
  · unfold AccessPoint.handle_message_2
    split
    · rw [generate_gtk_type_error]
      exact ⟨rfl, rfl, rfl, rfl⟩
    · exact ⟨rfl, rfl, rfl, rfl⟩
  · unfold AccessPoint.handle_message_4
    split
    · exact ⟨rfl, rfl, rfl, rfl⟩
    · exact ⟨rfl, rfl, rfl, rfl⟩
  · rw [generate_gtk_type_error]
    exact ⟨rfl, rfl, rfl, rfl⟩

/-- C1: re-entrant install hazard. Calling `handle_message_3` twice with two
Message 3 objects carrying the same `gtk` but different (increasing, hence
accepted) replay counters resets the keystream position to byte 0 both times:
encrypting a plaintext of length `N` immediately after each call yields
ciphertexts whose XOR with their respective plaintexts is the same `N`-byte
keystream prefix. -/
theorem krack_keystream_reuse (c : Client) (m1 m2 : Msg3) (p1 p2 : Bytes) (N : Nat)
    (hgtk : m1.gtk = m2.gtk)
    (hr1 : c.replay_counter < m1.r) (hr2 : m1.r < m2.r)
    (hp1 : p1.length = N) (hp2 : p2.length = N) :
    let c1 := okD (c.handle_message_3 m1) c
    let e1 := c1.encrypt p1
    let c3 := okD (e1.2.handle_message_3 m2) e1.2
    let e2 := c3.encrypt p2
    exceptOk (c.handle_message_3 m1) = true ∧
    exceptOk (e1.2.handle_message_3 m2) = true ∧
    List.zipWith (fun x y => x ^^^ y) e1.1 p1 = keystream c.ptk N ∧
    List.zipWith (fun x y => x ^^^ y) e2.1 p2 = keystream c.ptk N ∧
    List.zipWith (fun x y => x ^^^ y) e1.1 p1
      = List.zipWith (fun x y => x ^^^ y) e2.1 p2 := by
  have hcancel : ∀ q : Bytes, q.length = N →
      List.zipWith (fun x y => x ^^^ y)
        (List.zipWith (fun x y => x ^^^ y) q ((keystream c.ptk (0 + q.length)).drop 0)) q
      = keystream c.ptk N := by
    intro q hq
    rw [List.drop_zero, Nat.zero_add, hq]
    exact zipWith_xor_cancel q (keystream c.ptk N) (hq.trans (keystream_length c.ptk N).symm)
  dsimp only [Client.handle_message_3, Client.encrypt, okD, exceptOk]
  rw [if_pos hr1]
  dsimp only [okD, exceptOk]
  rw [if_pos hr2]
  dsimp only [okD, exceptOk]
  refine ⟨rfl, rfl, hcancel p1 hp1, hcancel p2 hp2, ?_⟩
  rw [hcancel p1 hp1, hcancel p2 hp2]

/-- C1 witness: instantiating the keystream-reuse property at a concrete
Supplicant state, two retransmitted Message 3 values with the same `gtk`, and
two 2-byte plaintexts. -/
theorem krack_keystream_reuse_witness :
    (([9] : Bytes) = [9] ∧ (0 : Int) < 1 ∧ (1 : Int) < 2 ∧
      ([10, 20] : Bytes).length = 2 ∧ ([99, 7] : Bytes).length = 2) ∧
    (let c0 : Client := ⟨[1], [2], [3], 0, [], [], [7, 7], [], 0, fun _ => [5], 0⟩
     let c1 := okD (c0.handle_message_3 ⟨[9], 1⟩) c0
     let e1 := c1.encrypt [10, 20]
     let c3 := okD (e1.2.handle_message_3 ⟨[9], 2⟩) e1.2
     let e2 := c3.encrypt [99, 7]
     exceptOk (c0.handle_message_3 ⟨[9], 1⟩) = true ∧
     exceptOk (e1.2.handle_message_3 ⟨[9], 2⟩) = true ∧
     List.zipWith (fun x y => x ^^^ y) e1.1 [10, 20] = keystream c0.ptk 2 ∧
     List.zipWith (fun x y => x ^^^ y) e2.1 [99, 7] = keystream c0.ptk 2 ∧
     List.zipWith (fun x y => x ^^^ y) e1.1 [10, 20]
       = List.zipWith (fun x y => x ^^^ y) e2.1 [99, 7]) :=
  ⟨⟨rfl, by decide, by decide, rfl, rfl⟩,
    krack_keystream_reuse ⟨[1], [2], [3], 0, [], [], [7, 7], [], 0, fun _ => [5], 0⟩
      ⟨[9], 1⟩ ⟨[9], 2⟩ [10, 20] [99, 7] 2 rfl (by decide) (by decide) rfl rfl⟩
